import Mathlib

/-
  Verification of the ChemAI-Analyst pipeline (src/app.py).

  Shallow embedding conventions:
  - Python floats are modelled as rationals (the geometry arithmetic is
    exact affine arithmetic: scaling, padding, max/min clamping).
  - A PDF document is modelled by its list of page sizes (fitz page.rect
    gives height and width), since only sizes and the page count are read.
  - The rasterization step (page.get_pixmap + PIL Image.open, lines
    192-196 of app.py) is external library code; it is modelled as a
    parameter raster : Int -> Rect -> Option Image, returning none exactly
    when the try-block raises inside that step.
  - A figure dict is modelled as a structure with the keys the code
    touches: label, explanation, page_number, bbox, pil_image; fig.get
    defaults are made explicit with Option and getD.
-/

/-- An opaque token standing for a PIL image object. -/
abbrev Image := Nat

/-- A page size: page.rect.height and page.rect.width in page points. -/
structure Page where
  height : ℚ
  width : ℚ
deriving DecidableEq, Repr

/-- A fitz.Rect, constructed as fitz.Rect(x1, y1, x2, y2) at line 191. -/
structure Rect where
  x1 : ℚ
  y1 : ℚ
  x2 : ℚ
  y2 : ℚ
deriving DecidableEq, Repr

/-- One figure dict of the analysis record. -/
structure Figure where
  label : String
  explanation : String
  page_number : Option Int
  bbox : Option (List Int)
  pil_image : Option Image
deriving DecidableEq, Repr

/-- The analysis record returned by the Document Analyzer (the dict shape
fixed by ANALYSIS_SCHEMA in app.py, lines 36-66). -/
structure AnalysisRecord where
  title_en : String
  title_jp : String
  journal_authors : String
  publication_year : String
  background_objective : String
  results_summary : String
  results_figures : List Figure
  novelty : String
  conclusion_tasks : String
deriving DecidableEq, Repr

/-- The clip-rectangle computation of extract_images_from_pdf, app.py lines
181-191: padding 20 is applied to the raw normalized coordinates before
scaling by the page dimensions; x1 and y1 are clamped below by 0, x2 and y2
above by the page width and height. -/
def clip_rect (h w : ℚ) (ymin xmin ymax xmax : Int) : Rect :=
  let padding : ℚ := 20
  let y1 := max 0 (((ymin : ℚ) - padding) / 1000 * h)
  let x1 := max 0 (((xmin : ℚ) - padding) / 1000 * w)
  let y2 := min h (((ymax : ℚ) + padding) / 1000 * h)
  let x2 := min w (((xmax : ℚ) + padding) / 1000 * w)
  { x1 := x1, y1 := y1, x2 := x2, y2 := y2 }

/-- The body of the per-figure loop of extract_images_from_pdf (app.py
lines 165-204): page-range check, bbox-arity check, clip computation,
rasterization; any rasterization failure is caught by the except and the
figure is appended unchanged. -/
def process_figure (doc : List Page) (raster : Int → Rect → Option Image)
    (fig : Figure) : Figure :=
  let page_num : Int := fig.page_number.getD 1 - 1
  if page_num < 0 ∨ (doc.length : Int) ≤ page_num then fig
  else
    match doc[page_num.toNat]? with
    | none => fig
    | some page =>
      match fig.bbox.getD [] with
      | [ymin, xmin, ymax, xmax] =>
        let r := clip_rect page.height page.width ymin xmin ymax xmax
        match raster page_num r with
        | some image => { fig with pil_image := some image }
        | none => fig
      | _ => fig

/-- extract_images_from_pdf (app.py lines 160-207): each figure of
results_figures is processed in order, appended exactly once to
enriched_figures, and the record is returned with that list. -/
def extract_images_from_pdf (doc : List Page)
    (raster : Int → Rect → Option Image) (analysis_data : AnalysisRecord) :
    AnalysisRecord :=
  { analysis_data with
    results_figures :=
      analysis_data.results_figures.map (process_figure doc raster) }

/-
  Python reference semantics of extract_images_from_pdf (claim C10): the
  figure dicts live on a heap addressed by Nat; the record holds a list of
  figure addresses. fig["pil_image"] = image (line 199) mutates the heap
  cell in place; enriched_figures collects the same object references, so
  analysis_data["results_figures"] = enriched_figures (line 206) leaves the
  addresses unchanged, and return analysis_data (line 207) returns the very
  record reference that was passed in.
-/

/-- The placeholder a dangling address dereferences to; never reached when
every address is in range. -/
def default_figure : Figure :=
  { label := "", explanation := "", page_number := none, bbox := none,
    pil_image := none }

/-- The loop of extract_images_from_pdf acting on the figure heap: each
iteration overwrites the figure object at its address with its processed
version (the in-place fig assignment of line 199). -/
def mutate_figures (doc : List Page) (raster : Int → Rect → Option Image)
    (heap : List Figure) (fig_addrs : List Nat) : List Figure :=
  fig_addrs.foldl
    (fun h a => h.set a (process_figure doc raster (h.getD a default_figure)))
    heap

/-- extract_images_from_pdf under reference semantics: it returns the input
record reference itself, together with the heap after the in-place updates. -/
def extract_images_inplace (doc : List Page)
    (raster : Int → Rect → Option Image) (heap : List Figure)
    (rec_addr : Nat) (fig_addrs : List Nat) : Nat × List Figure :=
  (rec_addr, mutate_figures doc raster heap fig_addrs)

/-
  Document Analyzer (analyze_pdf_with_gemini, app.py lines 104-158).
  The backend response is modelled by what the single generate_content call
  plus json.loads can observe: the call raises (BackendResult.failure),
  returns text that json.loads rejects (BackendResult.ok_invalid_json), or
  returns text parsing to a JSON value (BackendResult.ok_json v).
-/

/-- A JSON value, the result of json.loads on the response text. -/
inductive JValue where
  | null : JValue
  | bool (b : Bool) : JValue
  | num (n : Int) : JValue
  | str (s : String) : JValue
  | arr (elems : List JValue) : JValue
  | obj (fields : List (String × JValue)) : JValue

/-- Lookup of a key in a JSON object. -/
def jLookup (fields : List (String × JValue)) (k : String) : Option JValue :=
  match fields with
  | [] => none
  | (k2, v) :: rest => if k2 = k then some v else jLookup rest k

/-- Whether a JSON object carries the key as a string value. -/
def strField (fields : List (String × JValue)) (k : String) : Bool :=
  match jLookup fields k with
  | some (JValue.str _) => true
  | _ => false

/-- Whether a JSON value is an integer. -/
def isInt : JValue → Bool
  | JValue.num _ => true
  | _ => false

/-- Conformance of one figure entry to the items schema of
results_figures in ANALYSIS_SCHEMA (app.py lines 47-59): label and
explanation strings, page_number an integer, bbox an array of integers. -/
def conformsFigureSchema (v : JValue) : Bool :=
  match v with
  | JValue.obj fs =>
    strField fs "label" && strField fs "explanation" &&
    (match jLookup fs "page_number" with
     | some (JValue.num _) => true
     | _ => false) &&
    (match jLookup fs "bbox" with
     | some (JValue.arr xs) => xs.all isInt
     | _ => false)
  | _ => false

/-- Conformance of a payload to ANALYSIS_SCHEMA (app.py lines 36-66):
every required text field present as a string and results_figures an
array of conforming figure objects. -/
def conformsAnalysisSchema (v : JValue) : Bool :=
  match v with
  | JValue.obj fs =>
    strField fs "title_en" && strField fs "title_jp" &&
    strField fs "journal_authors" && strField fs "publication_year" &&
    strField fs "background_objective" && strField fs "results_summary" &&
    strField fs "novelty" && strField fs "conclusion_tasks" &&
    (match jLookup fs "results_figures" with
     | some (JValue.arr xs) => xs.all conformsFigureSchema
     | _ => false)
  | _ => false

/-- The observable outcomes of one generate_content call followed by
json.loads, as seen from inside the try of analyze_pdf_with_gemini. -/
inductive BackendResult where
  | failure : BackendResult
  | ok_invalid_json : BackendResult
  | ok_json (v : JValue) : BackendResult

/-- What analyze_pdf_with_gemini does: raise ValueError, rethrow the
backend exception, rethrow the JSONDecodeError of json.loads, or return
the parsed payload. -/
inductive AnalyzeOutcome where
  | value_error : AnalyzeOutcome
  | backend_error : AnalyzeOutcome
  | json_decode_error : AnalyzeOutcome
  | parsed (v : JValue) : AnalyzeOutcome

/-- analyze_pdf_with_gemini (app.py lines 104-158) together with the
number of generate_content invocations it performs. A falsy api_key (None
or the empty string) raises ValueError before any call; otherwise exactly
one call is made and its outcome, exception or parse result, is returned
as is (the except clause re-raises e verbatim). -/
def analyze_pdf_with_gemini (api_key : Option String)
    (backend : BackendResult) : AnalyzeOutcome × Nat :=
  match api_key with
  | none => (AnalyzeOutcome.value_error, 0)
  | some key =>
    if key = "" then (AnalyzeOutcome.value_error, 0)
    else
      match backend with
      | BackendResult.failure => (AnalyzeOutcome.backend_error, 1)
      | BackendResult.ok_invalid_json => (AnalyzeOutcome.json_decode_error, 1)
      | BackendResult.ok_json v => (AnalyzeOutcome.parsed v, 1)

/-
  Key Selector (get_api_key, app.py lines 70-102). The configuration
  sources are st.secrets and os.environ; a secrets value under
  GEMINI_API_KEYS may be a list or a string.
-/

/-- A value stored in st.secrets under GEMINI_API_KEYS. -/
inductive SecretVal where
  | str (s : String) : SecretVal
  | list (xs : List String) : SecretVal

/-- The configuration read by get_api_key: the two secrets entries and the
two environment variables it consults (none models an absent key). -/
structure KeyConfig where
  secrets_api_keys : Option SecretVal
  env_api_keys : Option String
  env_api_key : Option String
  secrets_api_key : Option String

/-- The comprehension of lines 83 and 88: split on commas, strip each
piece, keep the non-empty ones. -/
def parse_key_list (s : String) : List String :=
  ((s.splitOn ",").map String.trim).filter (fun k => k ≠ "")

/-- The keys list built by get_api_key before the random choice (app.py
lines 75-96): secrets GEMINI_API_KEYS (list taken as is, string split on
commas), then env GEMINI_API_KEYS when truthy, then the single-key
fallback only when the pool is still empty. -/
def get_keys (cfg : KeyConfig) : List String :=
  let keys : List String :=
    (match cfg.secrets_api_keys with
     | some (SecretVal.list xs) => xs
     | some (SecretVal.str s) => parse_key_list s
     | none => []) ++
    (match cfg.env_api_keys with
     | some s => if s = "" then [] else parse_key_list s
     | none => [])
  if keys = [] then
    let sk0 : Option String := cfg.env_api_key
    let sk1 : Option String :=
      if (sk0 = none ∨ sk0 = some "") ∧ cfg.secrets_api_key ≠ none then
        cfg.secrets_api_key
      else sk0
    match sk1 with
    | some s => if s = "" then [] else [s]
    | none => []
  else keys

/-- get_api_key (app.py lines 70-102): None on an empty pool, otherwise
random.choice over the pool; the randomness is modelled by an arbitrary
index selector pick, reduced modulo the pool size. -/
def get_api_key (cfg : KeyConfig) (pick : List String → Nat) :
    Option String :=
  let keys := get_keys cfg
  if keys = [] then none
  else some (keys.getD (pick keys % keys.length) "")

/-
  Spec-side definitions, for comparison with the code-side ones above.
-/

/-- Two-sided clamping of v into the interval from lo to hi. -/
def clamp (lo hi v : ℚ) : ℚ := max lo (min hi v)

/-- The clip rectangle exactly as claim C1 words it: each normalized
coordinate scaled to page units first, then the padding applied in page
units, under two-sided clamping. -/
def clip_rect_claimed (h w : ℚ) (ymin xmin ymax xmax : Int) : Rect :=
  { x1 := clamp 0 w ((xmin : ℚ) / 1000 * w - 20)
    y1 := clamp 0 h ((ymin : ℚ) / 1000 * h - 20)
    x2 := clamp 0 w ((xmax : ℚ) / 1000 * w + 20)
    y2 := clamp 0 h ((ymax : ℚ) / 1000 * h + 20) }

/-- The amended mapping formula: coordinates scaled to page units, the
20-unit padding likewise scaled to page units as 20·W/1000 resp. 20·H/1000
(padding lives in the normalized space), with x1, y1 clamped below by 0
only and x2, y2 clamped above by W, H only. -/
def clip_rect_amended (h w : ℚ) (ymin xmin ymax xmax : Int) : Rect :=
  { x1 := max 0 ((xmin : ℚ) / 1000 * w - 20 * w / 1000)
    y1 := max 0 ((ymin : ℚ) / 1000 * h - 20 * h / 1000)
    x2 := min w ((xmax : ℚ) / 1000 * w + 20 * w / 1000)
    y2 := min h ((ymax : ℚ) / 1000 * h + 20 * h / 1000) }

/-- Claim C1, counterexample: on the 792×612-point page with bbox
[100, 100, 300, 400] and padding 20, the code computes x1 = 48.96
(= 1224/25), not the claimed x1 = 41.2 (= 206/5); the code's rectangle
differs from the claimed formula because the padding is subtracted before
scaling, not after. -/
theorem C1_clip_rect_counterexample :
    clip_rect 792 612 100 100 300 400 ≠
      clip_rect_claimed 792 612 100 100 300 400 ∧
    (clip_rect_claimed 792 612 100 100 300 400).x1 = 206 / 5 ∧
    (clip_rect 792 612 100 100 300 400).x1 = 1224 / 25 := by
  have hcode : clip_rect 792 612 100 100 300 400 =
      { x1 := 1224 / 25, y1 := 1584 / 25, x2 := 6426 / 25, y2 := 6336 / 25 } := by
    simp only [clip_rect, max_def, min_def, Rect.mk.injEq]
    norm_num
  have hclaim : (clip_rect_claimed 792 612 100 100 300 400).x1 = 206 / 5 := by
    simp only [clip_rect_claimed, clamp, max_def, min_def]
    norm_num
  refine ⟨fun hEq => ?_, hclaim, by rw [hcode]⟩
  have := congrArg Rect.x1 hEq
  rw [hcode] at this
  rw [hclaim] at this
  norm_num at this

/-- Claim C1, amended: the Geometry Mapper applies the 20-unit padding in
the normalized space before scaling (equivalently, the padding in page
units is 20·H/1000 resp. 20·W/1000), clamping x1, y1 below by 0 and x2, y2
above by W, H; on the 792×612 example the clip rectangle is x1 = 48.96,
y1 = 63.36, x2 = 257.04, y2 = 253.44. -/
theorem C1_clip_rect_amended :
    (∀ (h w : ℚ) (ymin xmin ymax xmax : Int),
      clip_rect h w ymin xmin ymax xmax =
        clip_rect_amended h w ymin xmin ymax xmax) ∧
    clip_rect 792 612 100 100 300 400 =
      { x1 := 1224 / 25, y1 := 1584 / 25, x2 := 6426 / 25, y2 := 6336 / 25 } := by
  constructor
  · intro h w ymin xmin ymax xmax
    simp only [clip_rect, clip_rect_amended, Rect.mk.injEq]
    refine ⟨?_, ?_, ?_, ?_⟩ <;> · congr 1; ring
  · simp only [clip_rect, max_def, min_def, Rect.mk.injEq]
    norm_num

/-- Bounds for one axis of the padded clip computation: for a positive
extent and normalized coordinates lo ≤ hi within 0–1000, the padded lower
edge stays in range and below the padded upper edge. -/
lemma pad_axis_bounds (w lo hi : ℚ) (hw : 0 < w) (hlo0 : 0 ≤ lo)
    (hlo1 : lo ≤ 1000) (hhi0 : 0 ≤ hi) (hlohi : lo ≤ hi) :
    0 ≤ max 0 ((lo - 20) / 1000 * w) ∧
    max 0 ((lo - 20) / 1000 * w) ≤ min w ((hi + 20) / 1000 * w) ∧
    min w ((hi + 20) / 1000 * w) ≤ w := by
  have h1 : (lo - 20) / 1000 * w ≤ w := by
    rw [div_mul_eq_mul_div, div_le_iff₀ (by norm_num : (0 : ℚ) < 1000)]
    nlinarith
  have h2 : (lo - 20) / 1000 * w ≤ (hi + 20) / 1000 * w := by
    apply mul_le_mul_of_nonneg_right _ hw.le
    exact (div_le_div_right (by norm_num : (0 : ℚ) < 1000)).mpr (by linarith)
  have h3 : 0 ≤ (hi + 20) / 1000 * w :=
    mul_nonneg (div_nonneg (by linarith) (by norm_num)) hw.le
  exact ⟨le_max_left 0 _, le_min (max_le hw.le h1) (max_le h3 h2),
    min_le_left w _⟩

/-- Claim C2: for bbox components in the 0–1000 range with ordered pairs
and a positive page extent, the rectangle computed by
extract_images_from_pdf, padding included, lies within the page and is
properly ordered. -/
theorem C2_clip_rect_within_page (h w : ℚ) (ymin xmin ymax xmax : Int)
    (hh : 0 < h) (hw : 0 < w)
    (hy0 : 0 ≤ ymin) (hy1 : ymin ≤ 1000) (hy2 : 0 ≤ ymax) (hy3 : ymax ≤ 1000)
    (hx0 : 0 ≤ xmin) (hx1 : xmin ≤ 1000) (hx2 : 0 ≤ xmax) (hx3 : xmax ≤ 1000)
    (hyy : ymin ≤ ymax) (hxx : xmin ≤ xmax) :
    0 ≤ (clip_rect h w ymin xmin ymax xmax).x1 ∧
    (clip_rect h w ymin xmin ymax xmax).x1 ≤
      (clip_rect h w ymin xmin ymax xmax).x2 ∧
    (clip_rect h w ymin xmin ymax xmax).x2 ≤ w ∧
    0 ≤ (clip_rect h w ymin xmin ymax xmax).y1 ∧
    (clip_rect h w ymin xmin ymax xmax).y1 ≤
      (clip_rect h w ymin xmin ymax xmax).y2 ∧
    (clip_rect h w ymin xmin ymax xmax).y2 ≤ h := by
  have hyQ := pad_axis_bounds h (ymin : ℚ) (ymax : ℚ) hh
    (by exact_mod_cast hy0) (by exact_mod_cast hy1)
    (by exact_mod_cast hy2) (by exact_mod_cast hyy)
  have hxQ := pad_axis_bounds w (xmin : ℚ) (xmax : ℚ) hw
    (by exact_mod_cast hx0) (by exact_mod_cast hx1)
    (by exact_mod_cast hx2) (by exact_mod_cast hxx)
  simp only [clip_rect]
  exact ⟨hxQ.1, hxQ.2.1, hxQ.2.2, hyQ.1, hyQ.2.1, hyQ.2.2⟩

/-
  Concrete sample data for witnesses.
-/

/-- A letter-size page, 792 points high and 612 points wide. -/
def sample_page : Page := { height := 792, width := 612 }

/-- The example figure of the spec scenario. -/
def sample_figure : Figure :=
  { label := "Figure 1", explanation := "ex", page_number := some 1,
    bbox := some [100, 100, 300, 400], pil_image := none }

/-- A record holding the given figures with empty text fields. -/
def sample_record (figs : List Figure) : AnalysisRecord :=
  { title_en := "t", title_jp := "tj", journal_authors := "j",
    publication_year := "2024", background_objective := "b",
    results_summary := "r", results_figures := figs, novelty := "n",
    conclusion_tasks := "c" }

/-- A rasterizer that renders exactly the non-degenerate rectangles,
failing on empty ones. -/
def proper_raster : Int → Rect → Option Image :=
  fun _ r => if r.x1 < r.x2 ∧ r.y1 < r.y2 then some 1 else none

/-- Case split of the per-figure loop body: a figure either passes through
unchanged or gets exactly its pil_image field set. -/
lemma process_figure_cases (doc : List Page)
    (raster : Int → Rect → Option Image) (fig : Figure) :
    process_figure doc raster fig = fig ∨
    ∃ image, process_figure doc raster fig =
      { fig with pil_image := some image } := by
  simp only [process_figure]
  repeat' split
  all_goals first
    | exact Or.inl rfl
    | exact Or.inr ⟨_, rfl⟩

/-- Witness for C2 at the example page and bbox of the spec. -/
theorem C2_clip_rect_within_page_witness :
    0 ≤ (clip_rect 792 612 100 100 300 400).x1 ∧
    (clip_rect 792 612 100 100 300 400).x1 ≤
      (clip_rect 792 612 100 100 300 400).x2 ∧
    (clip_rect 792 612 100 100 300 400).x2 ≤ 612 ∧
    0 ≤ (clip_rect 792 612 100 100 300 400).y1 ∧
    (clip_rect 792 612 100 100 300 400).y1 ≤
      (clip_rect 792 612 100 100 300 400).y2 ∧
    (clip_rect 792 612 100 100 300 400).y2 ≤ 792 :=
  C2_clip_rect_within_page 792 612 100 100 300 400 (by norm_num)
    (by norm_num) (by norm_num) (by norm_num) (by norm_num) (by norm_num)
    (by norm_num) (by norm_num) (by norm_num) (by norm_num) (by norm_num)
    (by norm_num)

/-- Claim C5: a figure whose page_number lies outside the range from 1 to
the page count passes through extract_images_from_pdf entirely unchanged
(so its cropped image stays unset and its label and explanation are
untouched), it is still present at its position in the output, and every
other figure of the batch is still processed. -/
theorem C5_page_out_of_range (doc : List Page)
    (raster : Int → Rect → Option Image) (record : AnalysisRecord)
    (i : Nat) (fig : Figure) (p : Int)
    (hf : record.results_figures[i]? = some fig)
    (hp : fig.page_number = some p)
    (hout : p < 1 ∨ (doc.length : Int) < p) :
    process_figure doc raster fig = fig ∧
    (extract_images_from_pdf doc raster record).results_figures[i]? =
      some fig ∧
    ∀ (j : Nat) (g : Figure), record.results_figures[j]? = some g →
      (extract_images_from_pdf doc raster record).results_figures[j]? =
        some (process_figure doc raster g) := by
  have hpf : process_figure doc raster fig = fig := by
    simp only [process_figure, hp, Option.getD_some]
    rw [if_pos]
    omega
  refine ⟨hpf, ?_, ?_⟩
  · simp only [extract_images_from_pdf, List.getElem?_map, hf,
      Option.map_some', hpf]
  · intro j g hg
    simp only [extract_images_from_pdf, List.getElem?_map, hg,
      Option.map_some']

/-- Witness for C5: page 5 of a 2-page document, spec example scenario. -/
theorem C5_page_out_of_range_witness :
    process_figure [sample_page, sample_page] proper_raster
      { sample_figure with page_number := some 5 } =
      { sample_figure with page_number := some 5 } :=
  (C5_page_out_of_range [sample_page, sample_page] proper_raster
    (sample_record [{ sample_figure with page_number := some 5 }]) 0
    { sample_figure with page_number := some 5 } 5 rfl rfl
    (Or.inr (by norm_num))).1

/-- Claim C6: a figure whose bbox does not have exactly 4 components
passes through extract_images_from_pdf unchanged (its cropped image stays
unset) and is still included at its position in the output. -/
theorem C6_bad_bbox_arity (doc : List Page)
    (raster : Int → Rect → Option Image) (record : AnalysisRecord)
    (i : Nat) (fig : Figure) (l : List Int)
    (hf : record.results_figures[i]? = some fig)
    (hb : fig.bbox = some l) (hlen : l.length ≠ 4) :
    process_figure doc raster fig = fig ∧
    (extract_images_from_pdf doc raster record).results_figures[i]? =
      some fig := by
  have hpf : process_figure doc raster fig = fig := by
    simp only [process_figure, hb, Option.getD_some]
    split
    · rfl
    split
    · rfl
    rcases l with _ | ⟨a, _ | ⟨b, _ | ⟨c, _ | ⟨d, _ | ⟨e, t⟩⟩⟩⟩⟩
    · rfl
    · rfl
    · rfl
    · rfl
    · exact absurd rfl hlen
    · rfl
  refine ⟨hpf, ?_⟩
  simp only [extract_images_from_pdf, List.getElem?_map, hf,
    Option.map_some', hpf]

/-- Witness for C6: a 3-component bbox on an in-range page. -/
theorem C6_bad_bbox_arity_witness :
    process_figure [sample_page] proper_raster
      { sample_figure with bbox := some [100, 100, 300] } =
      { sample_figure with bbox := some [100, 100, 300] } :=
  (C6_bad_bbox_arity [sample_page] proper_raster
    (sample_record [{ sample_figure with bbox := some [100, 100, 300] }]) 0
    { sample_figure with bbox := some [100, 100, 300] } [100, 100, 300]
    rfl rfl (by norm_num)).1

/-- Claim C7: the output figures list of extract_images_from_pdf has the
same length as the input list, and the figure at each output index is the
processed version of the input figure at the same index, however many
crops failed. -/
theorem C7_positional_integrity (doc : List Page)
    (raster : Int → Rect → Option Image) (record : AnalysisRecord) :
    (extract_images_from_pdf doc raster record).results_figures.length =
      record.results_figures.length ∧
    ∀ (i : Nat) (fig : Figure), record.results_figures[i]? = some fig →
      (extract_images_from_pdf doc raster record).results_figures[i]? =
        some (process_figure doc raster fig) := by
  constructor
  · simp [extract_images_from_pdf]
  · intro i fig hf
    simp only [extract_images_from_pdf, List.getElem?_map, hf,
      Option.map_some']

/-- Witness for C7 on a one-figure record. -/
theorem C7_positional_integrity_witness :
    (extract_images_from_pdf [sample_page] proper_raster
      (sample_record [sample_figure])).results_figures[0]? =
      some (process_figure [sample_page] proper_raster sample_figure) :=
  (C7_positional_integrity [sample_page] proper_raster
    (sample_record [sample_figure])).2 0 sample_figure rfl

/-- Claim C8: the per-figure pass never changes label, explanation,
page_number or bbox; the figure either passes through identically or has
exactly its pil_image field set. -/
theorem C8_no_field_mutation (doc : List Page)
    (raster : Int → Rect → Option Image) (fig : Figure) :
    ((process_figure doc raster fig).label = fig.label ∧
     (process_figure doc raster fig).explanation = fig.explanation ∧
     (process_figure doc raster fig).page_number = fig.page_number ∧
     (process_figure doc raster fig).bbox = fig.bbox) ∧
    (process_figure doc raster fig = fig ∨
     ∃ image, process_figure doc raster fig =
       { fig with pil_image := some image }) := by
  refine ⟨?_, process_figure_cases doc raster fig⟩
  rcases process_figure_cases doc raster fig with h | ⟨image, h⟩ <;>
    rw [h] <;> exact ⟨rfl, rfl, rfl, rfl⟩

/-- Claim C3, counterexample: a payload that is valid JSON but does not
conform to ANALYSIS_SCHEMA (the empty object) is returned as the parse
result without any error; analyze_pdf_with_gemini performs no local schema
validation beyond json.loads. -/
theorem C3_schema_error_counterexample :
    conformsAnalysisSchema (JValue.obj []) = false ∧
    analyze_pdf_with_gemini (some "key")
        (BackendResult.ok_json (JValue.obj [])) =
      (AnalyzeOutcome.parsed (JValue.obj []), 1) := by
  constructor
  · rfl
  · simp [analyze_pdf_with_gemini]

/-- Claim C3, amended: with a usable credential, analyze_pdf_with_gemini
propagates a backend failure verbatim, raises a parse error exactly when
the payload is not valid JSON (schema conformance is delegated to the
backend and not re-checked locally), returns the parsed payload otherwise,
and always performs exactly one backend invocation, with no retry. -/
theorem C3_error_contract (key : String) (hk : key ≠ "")
    (backend : BackendResult) :
    (backend = BackendResult.failure →
      analyze_pdf_with_gemini (some key) backend =
        (AnalyzeOutcome.backend_error, 1)) ∧
    (backend = BackendResult.ok_invalid_json →
      analyze_pdf_with_gemini (some key) backend =
        (AnalyzeOutcome.json_decode_error, 1)) ∧
    (∀ v, backend = BackendResult.ok_json v →
      analyze_pdf_with_gemini (some key) backend =
        (AnalyzeOutcome.parsed v, 1)) ∧
    (analyze_pdf_with_gemini (some key) backend).2 = 1 := by
  simp only [analyze_pdf_with_gemini, if_neg hk]
  refine ⟨fun h => by rw [h], fun h => by rw [h], fun v h => by rw [h], ?_⟩
  cases backend <;> rfl

/-- Witness for C3 as amended, at a concrete failing backend. -/
theorem C3_error_contract_witness :
    analyze_pdf_with_gemini (some "key") BackendResult.failure =
      (AnalyzeOutcome.backend_error, 1) :=
  (C3_error_contract "key" (by simp) BackendResult.failure).1 rfl

/-- Claim C9: with an empty credential pool the Key Selector yields no
credential and the Analyzer raises before any backend invocation (its
call count is 0); with a non-empty pool the selected credential is a
member of the pool. -/
theorem C9_key_selector (cfg : KeyConfig) (pick : List String → Nat)
    (backend : BackendResult) :
    (get_keys cfg = [] →
      get_api_key cfg pick = none ∧
      analyze_pdf_with_gemini (get_api_key cfg pick) backend =
        (AnalyzeOutcome.value_error, 0)) ∧
    (get_keys cfg ≠ [] →
      ∃ k, get_api_key cfg pick = some k ∧ k ∈ get_keys cfg) := by
  constructor
  · intro h
    have hnone : get_api_key cfg pick = none := by
      simp [get_api_key, h]
    exact ⟨hnone, by rw [hnone]; rfl⟩
  · intro h
    have hlen : 0 < (get_keys cfg).length := List.length_pos.mpr h
    have hidx : pick (get_keys cfg) % (get_keys cfg).length <
        (get_keys cfg).length := Nat.mod_lt _ hlen
    refine ⟨(get_keys cfg).getD
      (pick (get_keys cfg) % (get_keys cfg).length) "", ?_, ?_⟩
    · simp only [get_api_key]
      rw [if_neg h]
    · rw [List.getD_eq_getElem _ _ hidx]
      exact List.getElem_mem hidx

/-- A configuration with no credential source at all. -/
def empty_config : KeyConfig :=
  { secrets_api_keys := none, env_api_keys := none, env_api_key := none,
    secrets_api_key := none }

/-- A configuration with a two-key pool in the secrets list. -/
def two_key_config : KeyConfig :=
  { secrets_api_keys := some (SecretVal.list ["k1", "k2"]),
    env_api_keys := none, env_api_key := none, secrets_api_key := none }

/-- Witness for C9: the empty configuration yields no key and a zero-call
value error, and a two-key pool yields a member of the pool. -/
theorem C9_key_selector_witness :
    (get_api_key empty_config (fun _ => 0) = none ∧
      analyze_pdf_with_gemini (get_api_key empty_config (fun _ => 0))
        BackendResult.failure = (AnalyzeOutcome.value_error, 0)) ∧
    (∃ k, get_api_key two_key_config (fun _ => 0) = some k ∧
      k ∈ get_keys two_key_config) :=
  ⟨(C9_key_selector empty_config (fun _ => 0) BackendResult.failure).1 rfl,
   (C9_key_selector two_key_config (fun _ => 0) BackendResult.failure).2
     (by simp [get_keys, two_key_config])⟩

/-- Claim C4, counterexample: the pipeline performs no bbox-ordering
validation. The bbox [110, 100, 100, 400] violates ymin ≤ ymax, yet with
a rasterizer that renders every non-degenerate rectangle (as the real one
does; here the padded clip is the proper rectangle from y 71.28 to 95.04
and x 48.96 to 257.04 on the 792×612 page) the figure receives a cropped
image instead of being left unset. -/
theorem C4_order_validation_counterexample :
    (100 : Int) < 110 ∧
    (process_figure [sample_page] proper_raster
      { sample_figure with bbox := some [110, 100, 100, 400] }).pil_image =
      some 1 := by
  refine ⟨by norm_num, ?_⟩
  have hr : clip_rect 792 612 110 100 100 400 =
      { x1 := 1224 / 25, y1 := 1782 / 25, x2 := 6426 / 25, y2 := 2376 / 25 } := by
    simp only [clip_rect, max_def, min_def, Rect.mk.injEq]
    norm_num
  have hras : proper_raster 0 (clip_rect 792 612 110 100 100 400) = some 1 := by
    rw [hr]
    simp only [proper_raster]
    norm_num
  simp only [process_figure, sample_figure, sample_page, Option.getD_some]
  norm_num
  rw [hras]

/-- Claim C4, amended: the extraction pipeline does not validate the bbox
ordering invariant; a figure whose 4-component bbox violates it is cropped
like any other, and is left without an image exactly in the cases where
the rasterizer fails on the padded clip rectangle — in which case the
failure is non-fatal: the figure passes through unchanged and every other
figure of the batch is still processed with its fields unaffected. -/
theorem C4_order_violation_amended (doc : List Page)
    (raster : Int → Rect → Option Image) (record : AnalysisRecord)
    (fig : Figure) (ymin xmin ymax xmax : Int)
    (hb : fig.bbox = some [ymin, xmin, ymax, xmax])
    (hv : ymax < ymin ∨ xmax < xmin) :
    ((extract_images_from_pdf doc raster record).results_figures.length =
      record.results_figures.length) ∧
    (∀ (j : Nat) (g : Figure), record.results_figures[j]? = some g →
      (extract_images_from_pdf doc raster record).results_figures[j]? =
        some (process_figure doc raster g)) ∧
    (∀ (p : Int) (page : Page), fig.page_number = some p →
      1 ≤ p → p ≤ (doc.length : Int) → doc[(p - 1).toNat]? = some page →
      raster (p - 1) (clip_rect page.height page.width ymin xmin ymax xmax)
          = none →
      process_figure doc raster fig = fig) := by
  refine ⟨by simp [extract_images_from_pdf], ?_, ?_⟩
  · intro j g hg
    simp only [extract_images_from_pdf, List.getElem?_map, hg,
      Option.map_some']
  · intro p page hp hp1 hp2 hpage hras
    simp only [process_figure, hp, Option.getD_some]
    rw [if_neg (by omega)]
    rw [hpage]
    simp only [hb, Option.getD_some]
    rw [hras]

/-- Witness for C4 as amended: bbox [300, 100, 100, 400] (ymin 300 above
ymax 100 by more than twice the padding) yields a degenerate clip on the
792×612 page, the rasterizer fails, and the figure passes through
unchanged. -/
theorem C4_order_violation_amended_witness :
    process_figure [sample_page] proper_raster
      { sample_figure with bbox := some [300, 100, 100, 400] } =
      { sample_figure with bbox := some [300, 100, 100, 400] } :=
  (C4_order_violation_amended [sample_page] proper_raster
    (sample_record [{ sample_figure with bbox := some [300, 100, 100, 400] }])
    { sample_figure with bbox := some [300, 100, 100, 400] }
    300 100 100 400 rfl (Or.inl (by norm_num))).2.2 1 sample_page rfl
    (by norm_num) (by norm_num) rfl
    (by
      have hr : clip_rect sample_page.height sample_page.width 300 100 100 400 =
          { x1 := 1224 / 25, y1 := 5544 / 25, x2 := 6426 / 25,
            y2 := 2376 / 25 } := by
        simp only [clip_rect, sample_page, max_def, min_def, Rect.mk.injEq]
        norm_num
      rw [hr]
      simp only [proper_raster]
      norm_num)

/-- Heap cells at addresses outside the processed list are untouched by
the loop. -/
lemma mutate_figures_untouched (doc : List Page)
    (raster : Int → Rect → Option Image) (fig_addrs : List Nat) :
    ∀ (heap : List Figure) (b : Nat), b ∉ fig_addrs →
      (mutate_figures doc raster heap fig_addrs)[b]? = heap[b]? := by
  induction fig_addrs with
  | nil => intro heap b _; rfl
  | cons a as ih =>
    intro heap b hb
    have hba : a ≠ b := fun h => hb (h ▸ List.mem_cons_self a as)
    have hbas : b ∉ as := fun h => hb (List.mem_cons_of_mem a h)
    simp only [mutate_figures, List.foldl_cons]
    rw [show (List.foldl _ _ as) = mutate_figures doc raster
      (heap.set a (process_figure doc raster (heap.getD a default_figure)))
      as from rfl]
    rw [ih _ b hbas]
    exact List.getElem?_set_ne hba

/-- The loop preserves the heap size. -/
lemma mutate_figures_length (doc : List Page)
    (raster : Int → Rect → Option Image) (fig_addrs : List Nat) :
    ∀ heap : List Figure,
      (mutate_figures doc raster heap fig_addrs).length = heap.length := by
  induction fig_addrs with
  | nil => intro heap; rfl
  | cons a as ih =>
    intro heap
    simp only [mutate_figures, List.foldl_cons]
    rw [show (List.foldl _ _ as) = mutate_figures doc raster
      (heap.set a (process_figure doc raster (heap.getD a default_figure)))
      as from rfl]
    rw [ih]
    exact List.length_set ..

/-- After the loop, each distinct in-range address holds the processed
version of the figure object originally stored there. -/
lemma mutate_figures_getElem (doc : List Page)
    (raster : Int → Rect → Option Image) (fig_addrs : List Nat) :
    ∀ heap : List Figure, fig_addrs.Nodup →
      (∀ a ∈ fig_addrs, a < heap.length) →
      ∀ a ∈ fig_addrs,
        (mutate_figures doc raster heap fig_addrs)[a]? =
          some (process_figure doc raster (heap.getD a default_figure)) := by
  induction fig_addrs with
  | nil => intro heap _ _ a ha; cases ha
  | cons a0 as ih =>
    intro heap hnd hval a ha
    rw [List.nodup_cons] at hnd
    simp only [mutate_figures, List.foldl_cons]
    rw [show (List.foldl _ _ as) = mutate_figures doc raster
      (heap.set a0 (process_figure doc raster (heap.getD a0 default_figure)))
      as from rfl]
    rcases List.mem_cons.mp ha with rfl | has
    · rw [mutate_figures_untouched doc raster as _ a hnd.1]
      exact List.getElem?_set_eq_of_lt _ (hval a (List.mem_cons_self a as))
    · have hne : a ≠ a0 := fun h => hnd.1 (h ▸ has)
      have hval2 : ∀ b ∈ as, b <
          (heap.set a0 (process_figure doc raster
            (heap.getD a0 default_figure))).length := by
        intro b hbs
        rw [List.length_set]
        exact hval b (List.mem_cons_of_mem a0 hbs)
      rw [ih _ hnd.2 hval2 a has]
      have : (heap.set a0 (process_figure doc raster
          (heap.getD a0 default_figure))).getD a default_figure =
          heap.getD a default_figure := by
        rw [List.getD_eq_getElem?_getD, List.getElem?_set_ne (Ne.symm hne),
          ← List.getD_eq_getElem?_getD]
      rw [this]

/-- Claim C10: under reference semantics, extract_images_from_pdf returns
the very record reference it was given, and the enrichment is effected by
mutating the original figure objects in place: after the call each of the
caller's figure addresses holds the processed (possibly pil_image-bearing)
version of the figure that was stored there, while every other heap cell
is untouched. -/
theorem C10_inplace_enrichment (doc : List Page)
    (raster : Int → Rect → Option Image) (heap : List Figure)
    (rec_addr : Nat) (fig_addrs : List Nat)
    (hnd : fig_addrs.Nodup) (hval : ∀ a ∈ fig_addrs, a < heap.length) :
    (extract_images_inplace doc raster heap rec_addr fig_addrs).1 =
      rec_addr ∧
    (∀ a ∈ fig_addrs,
      (extract_images_inplace doc raster heap rec_addr fig_addrs).2[a]? =
        some (process_figure doc raster (heap.getD a default_figure))) ∧
    (∀ b : Nat, b ∉ fig_addrs →
      (extract_images_inplace doc raster heap rec_addr fig_addrs).2[b]? =
        heap[b]?) :=
  ⟨rfl,
   fun a ha => mutate_figures_getElem doc raster fig_addrs heap hnd hval a ha,
   fun b hb => mutate_figures_untouched doc raster fig_addrs heap b hb⟩

/-- Witness for C10 on a two-cell heap whose record owns the figure at
address 0. -/
theorem C10_inplace_enrichment_witness :
    (extract_images_inplace [sample_page] proper_raster
      [sample_figure, default_figure] 0 [0]).1 = 0 ∧
    (∀ a ∈ [0],
      (extract_images_inplace [sample_page] proper_raster
        [sample_figure, default_figure] 0 [0]).2[a]? =
        some (process_figure [sample_page] proper_raster
          ([sample_figure, default_figure].getD a default_figure))) ∧
    (∀ b : Nat, b ∉ [0] →
      (extract_images_inplace [sample_page] proper_raster
        [sample_figure, default_figure] 0 [0]).2[b]? =
        [sample_figure, default_figure][b]?) :=
  C10_inplace_enrichment [sample_page] proper_raster
    [sample_figure, default_figure] 0 [0] (by simp)
    (by intro a ha; simp at ha; simp [ha])
